import Mathlib

/-!
Verification of the HL7 synthetic data generator driver
(`src/generator/gen_synthetic_data_hl7.py`, with the converted notebook
`src/_converted_notebooks/SyntheticGenerator_HL7.py` as a second copy of the
same pipeline).

The driver script is shallowly embedded here.  The support modules it imports
(`src.timeseries`, `src.synthetic_data_model`, `src.model_data_hl7`,
`src.pseudoperson`, `src.hl7`) are not part of the repository snapshot, so
their functions appear as abstract components (fields of `Components` /
`Env`), except where a claim is about a missing function itself, in which
case the function is modelled from the specification and marked as such in
its doc comment.

Strings are embedded as `List Char` (`PyStr`); Python `int` as `Int`;
`None`-able values as `Option`; `sys.exit` / uncaught exceptions as the
`Except ExitReason` monad.
-/

/-- Python strings, embedded as lists of characters. -/
abbrev PyStr := List Char

/-- Python `s.endswith(suffix)`. -/
def endswith (s suffix : PyStr) : Bool :=
  suffix.isSuffixOf s

/-- Python `s.rfind(c)`: index of the last occurrence of `c` in `s`,
`-1` if absent. -/
def rfind (c : Char) : PyStr → Int
  | [] => -1
  | x :: xs =>
      let r := rfind c xs
      if r ≥ 0 then r + 1
      else if x = c then 0 else -1

/-- Python `os.path.splitext(p)` (posix): split off the extension, which is
the suffix starting at the last dot of the basename, unless the basename
consists only of leading dots up to that dot.  Always returns a pair of
strings; the extension is the empty string (never `None`) when there is no
dot. -/
def splitext (p : PyStr) : PyStr × PyStr :=
  let sepIndex := rfind '/' p
  let dotIndex := rfind '.' p
  if sepIndex < dotIndex then
    let filenameIndex := sepIndex + 1
    if ((p.drop filenameIndex.toNat).take (dotIndex - filenameIndex).toNat).any
        (fun ch => ch != '.') then
      (p.take dotIndex.toNat, p.drop dotIndex.toNat)
    else (p, [])
  else (p, [])

/-- The extension component of `os.path.splitext`, wrapped in `Option` to
mirror the dynamic typing of the Python driver, which tests `ext is None`:
the wrapper is always `some` because `splitext` returns a string. -/
def py_splitext_ext (p : PyStr) : Option PyStr :=
  some (splitext p).2

/-- Python `os.path.split(p)` (posix, simplified): split at the last slash.
Like `splitext` it returns a pair of strings, never `None`. -/
def os_path_split (p : PyStr) : PyStr × PyStr :=
  let sepIndex := rfind '/' p
  if sepIndex < 0 then ([], p)
  else (p.take sepIndex.toNat, p.drop (sepIndex.toNat + 1))

/-- Python `s.lower()`. -/
def lower (s : PyStr) : PyStr :=
  s.map Char.toLower

/-- Truthiness of an optional Python int: `None` and `0` are falsy. -/
def truthy_int : Option Int → Bool
  | none => false
  | some v => v != 0

/-- The `_EXT_CSV` constant of the driver. -/
def EXT_CSV : PyStr := ['.', 'c', 's', 'v']

/-- The `_EXT_JSON` constant of the driver. -/
def EXT_JSON : PyStr := ['.', 'j', 's', 'o', 'n']

/-- Command-line arguments after `argparse` (`args` in the driver). -/
structure Args where
  hl7_dir : PyStr
  jurisdiction : PyStr
  condition_code : Int
  outfile : Option PyStr
  num_samples : Option Int
  rng_seed : Option Int
  debug : Bool
  disable_grouping : Bool
  syphilis_total : Bool
deriving DecidableEq

/-- Every way the driver terminates before writing an output file:
`sys.exit` calls, `model.error_exit`, and uncaught exceptions. -/
inductive ExitReason where
  | badExtensionPre
  | badDataDir (dir : PyStr)
  | noData (jurisdiction : PyStr) (codes : List Int)
  | badExtension (ext : PyStr)
  | badOutputFilepath
  | badNumSamples
  | initModelDataFailure
  | headerLengthMismatch
  | headerFieldMismatch (index : Nat)
  | assertionFailed
  | indexError
  | copulaFailure
deriving DecidableEq

/-- Process exit status of each termination: the no-data exit is
`sys.exit(0)`; uncaught exceptions exit with 1; every other exit is
`sys.exit(-1)`. -/
def exit_code : ExitReason → Int
  | .noData _ _ => 0
  | .assertionFailed => 1
  | .indexError => 1
  | _ => -1

/-- The local variables the driver derives from `args` (lines 158-179).
`num_samples` is declared here because the script declares the local; the
script never copies `args.num_samples` into it, so it keeps its default
`None`. -/
structure CLILocals where
  outfile : Option PyStr
  num_samples : Option Int
  rng_seed : Option Int
  disable_grouping : Bool
  syphilis_total : Bool
deriving DecidableEq

/-- Lines 158-179 of the driver: defaults for the optional arguments, the
truthiness tests on `args.rng_seed` and `args.outfile`, and the
`endswith('csv') / endswith('json')` pre-check on the output file (which
exits with `sys.exit(-1)` on failure).  The local `num_samples` is
initialized to `None` and never assigned from `args.num_samples`. -/
def cli_locals (args : Args) : Except ExitReason CLILocals :=
  let rng_seed : Option Int :=
    if truthy_int args.rng_seed then args.rng_seed else none
  let num_samples : Option Int := none
  match args.outfile with
  | none =>
      .ok ⟨none, num_samples, rng_seed, args.disable_grouping, args.syphilis_total⟩
  | some f =>
      if f.isEmpty then
        .ok ⟨none, num_samples, rng_seed, args.disable_grouping, args.syphilis_total⟩
      else if !(endswith f ['c', 's', 'v']) && !(endswith f ['j', 's', 'o', 'n']) then
        .error .badExtensionPre
      else
        .ok ⟨some f, num_samples, rng_seed, args.disable_grouping, args.syphilis_total⟩

/-!
The sparse-segment repair escalation loop (driver lines 368-384, notebook
lines 427-444):

    attempts = 0
    threshold_inc = 0.1
    while attempts < 7:
        delta = attempts * threshold_inc
        synthetic_timeseries = timeseries.modify_sparse_segments(rng,
                                                                 synthetic_fourier,
                                                                 delta)
        diff_signal = synthetic_timeseries - signal
        if not np.any(diff_signal):
            attempts += 1
            continue
        else:
            break

`timeseries.modify_sparse_segments` is not under `src/`, so the loop is
parametric in a repairer `modify : sigma -> List Int -> Rat -> List Int x sigma`
(RNG state, input series, delta).  The `while attempts < 7` guard is encoded
by structural recursion on `fuel = 7 - attempts`.  Floats are embedded as
rationals, and `numpy` elementwise subtraction as `List.zipWith` (the two
coincide whenever the operands have equal length, which the driver asserts
for the loop inputs).
-/

/-- The `threshold_inc = 0.1` constant of the escalation loop. -/
def threshold_inc : ℚ := 1 / 10

/-- The `delta = attempts * threshold_inc` perturbation strength used on a
given attempt. -/
def attempt_delta (attempts : Nat) : ℚ :=
  (attempts : ℚ) * threshold_inc

/-- The `np.any(synthetic_timeseries - signal)` test of the loop: true when
the elementwise difference is not identically zero. -/
def diff_nonzero (result signal : List Int) : Bool :=
  (List.zipWith (fun a b => a - b) result signal).any (fun x => x != 0)

/-- One unrolling of `while attempts < 7`, with `fuel = 7 - attempts`
iterations remaining; `last` is the `synthetic_timeseries` from the previous
iteration, returned when the guard fails. -/
def sparse_loop_fuel {σ : Type} (modify : σ → List Int → ℚ → List Int × σ)
    (signal synthetic_fourier : List Int) :
    Nat → Nat → σ → List Int → List Int × Nat × σ
  | 0, attempts, s, last => (last, attempts, s)
  | fuel + 1, attempts, s, last =>
      let p := modify s synthetic_fourier (attempt_delta attempts)
      if diff_nonzero p.1 signal then (p.1, attempts, p.2)
      else sparse_loop_fuel modify signal synthetic_fourier fuel (attempts + 1) p.2 p.1

/-- The whole escalation loop: starts with `attempts = 0` and the RNG state
`rng`; returns the accepted `synthetic_timeseries`, the final value of
`attempts`, and the final RNG state. -/
def sparse_repair_loop {σ : Type} (modify : σ → List Int → ℚ → List Int × σ)
    (signal synthetic_fourier : List Int) (rng : σ) : List Int × Nat × σ :=
  sparse_loop_fuel modify signal synthetic_fourier 7 0 rng []

/-- RNG state just before attempt `k` of the escalation loop, assuming
attempts `0..k-1` all ran (each attempt advances the state by one repairer
call on the unchanged `synthetic_fourier`). -/
def attempt_state {σ : Type} (modify : σ → List Int → ℚ → List Int × σ)
    (synthetic_fourier : List Int) (rng : σ) : Nat → σ
  | 0 => rng
  | k + 1 =>
      (modify (attempt_state modify synthetic_fourier rng k) synthetic_fourier
        (attempt_delta k)).2

/-- The series produced by attempt `k` of the escalation loop: a single
repairer call on the unchanged `synthetic_fourier` with `delta = 0.1 * k`. -/
def attempt_result {σ : Type} (modify : σ → List Int → ℚ → List Int × σ)
    (synthetic_fourier : List Int) (rng : σ) (k : Nat) : List Int :=
  (modify (attempt_state modify synthetic_fourier rng k) synthetic_fourier
    (attempt_delta k)).1

/-!
Abstract interfaces for the support modules that are not part of the
repository snapshot.  `Env` collects the file-discovery and path helpers
(`os.path.isdir`, `model.get_grouped_codes`, `model.build_input_filepaths`,
`model.default_output_dir`, `model.default_output_file_name`,
`model.build_output_filepath`); `Components` collects the statistical
pipeline stages, each threading the shared RNG state `σ` explicitly, exactly
as the driver passes the single `rng` object by reference.
-/

/-- File discovery and path construction helpers used by the driver. -/
structure Env where
  isdir : PyStr → Bool
  get_grouped_codes : Int → Bool → List Int
  build_input_filepaths : PyStr → PyStr → List Int → List PyStr
  default_output_dir : Bool → PyStr
  default_output_dir_noarg : PyStr
  default_output_file_name : PyStr → List Int → Bool → PyStr
  build_output_filepath : PyStr → PyStr → Option PyStr

/-- The pipeline stages of the driver, over RNG state `σ`, tau matrix `τ`,
CDF list `γ`, raw file data `φ`, categorical tuple matrix `μ`, remapped
results `ρ` and date-tuple list `δ`.  `seeded`/`fromTime` are the two ways
`model.init_rng` builds the RNG (explicit seed, or system time when the seed
is `None`). -/
structure Components (σ τ γ φ μ ρ δ : Type) where
  seeded : Int → σ
  fromTime : Nat → σ
  init_model_data :
    List PyStr → List PyStr → σ → (Option (List PyStr) × τ × γ × φ) × σ
  get_preprocessed_header : List PyStr
  output_fields : List PyStr
  signal_from_anchor_date : φ → List PyStr × List Int
  gen_synthetic_fourier : σ → List Int → List Int × σ
  modify_sparse_segments : σ → List Int → ℚ → List Int × σ
  copula_n_variable_model : Int → List PyStr → τ → γ → σ → (Option μ × τ) × σ
  correct_invalid_pseudopersons : Int → List PyStr → μ → τ → γ → σ → μ × σ
  remap_synthetic_results : μ → List PyStr → ρ
  generate_date_tuples :
    Int → List Int → List PyStr → List PyStr → ρ → PyStr → σ → δ × σ

/-- Modelled from the spec: `model.init_rng(rng_seed)` (module
`synthetic_data_model`, not under `src/`).  Per the driver docstring, the RNG
is seeded from the given value, or from the system time when the seed is
omitted. -/
def init_rng {σ τ γ φ μ ρ δ : Type} (comps : Components σ τ γ φ μ ρ δ)
    (time : Nat) (seed : Option Int) : σ :=
  match seed with
  | some s => comps.seeded s
  | none => comps.fromTime time

/-- The argument vector the driver hands to `data.write_output_file`
(lines 464-471); reaching this record is what "writing the output file"
means in this embedding. -/
structure WriteCall (ρ δ : Type) where
  output_file_path : PyStr
  sample_count : Int
  synthetic_timeseries : List Int
  dates : List PyStr
  variable_names : List PyStr
  synthetic_results : ρ
  str_max_date_orig : PyStr
  date_tuples : δ
deriving DecidableEq

/-- The seven variable names the driver requests from the loader
(lines 285-293).  The `src.hl7` constants are not in the snapshot; the exact
characters are immaterial to the driver, which only compares the list's
length, so representative spec names (spec section 6 field list) are used. -/
def NAME_AGE : PyStr := ['a', 'g', 'e']

/-- Spec field name constant, see `NAME_AGE`. -/
def NAME_SEX : PyStr := ['s', 'e', 'x']

/-- Spec field name constant, see `NAME_AGE`. -/
def NAME_RACE : PyStr := ['r', 'a', 'c', 'e']

/-- Spec field name constant, see `NAME_AGE`. -/
def NAME_ETHNICITY : PyStr := ['e', 't', 'h', 'n', 'i', 'c', 'i', 't', 'y']

/-- Spec field name constant, see `NAME_AGE`. -/
def NAME_CASE_STATUS : PyStr := ['c', 'a', 's', 'e', '_', 's', 't', 'a', 't', 'u', 's']

/-- Spec field name constant, see `NAME_AGE`. -/
def NAME_COUNTY : PyStr := ['c', 'o', 'u', 'n', 't', 'y']

/-- Spec field name constant, see `NAME_AGE`. -/
def NAME_PREGNANT : PyStr := ['p', 'r', 'e', 'g', 'n', 'a', 'n', 't']

/-- `variable_names_in` of the driver (lines 285-293). -/
def variable_names_in : List PyStr :=
  [NAME_AGE, NAME_SEX, NAME_RACE, NAME_ETHNICITY, NAME_CASE_STATUS,
   NAME_COUNTY, NAME_PREGNANT]

/-- The header validation of driver lines 304-318: first the length
comparison, then an index loop that exits at the first position where the
preprocessed header differs from `HL7.OUTPUT_FIELDS`. -/
def header_check (header_list output_fields : List PyStr) :
    Except ExitReason Unit :=
  if header_list.length ≠ output_fields.length then
    .error .headerLengthMismatch
  else
    match (List.range output_fields.length).find?
        (fun i => header_list.getD i [] != output_fields.getD i []) with
    | some i => .error (.headerFieldMismatch i)
    | none => .ok ()

/-- Driver lines 227-257: construct `(output_dir, output_file_name)`.  When
the user supplied an output file, `os.path.splitext` is consulted; the
driver's `ext is None` branch (which would append `.csv`) is modelled
through `py_splitext_ext`, which never returns `none`, making that branch
dead code; otherwise the lowercased extension must be `.csv` or `.json`. -/
def build_output_paths (l : CLILocals) (env : Env) (args : Args)
    (code_list : List Int) : Except ExitReason (PyStr × PyStr) :=
  let cont : PyStr → Except ExitReason (PyStr × PyStr) := fun outfile =>
    let sp := os_path_split outfile
    let dirOpt : Option PyStr := some sp.1
    let output_dir :=
      match dirOpt with
      | none => env.default_output_dir_noarg
      | some d => d
    .ok (output_dir, sp.2)
  match l.outfile with
  | none =>
      .ok (env.default_output_dir false,
           env.default_output_file_name args.jurisdiction code_list
             l.syphilis_total)
  | some f =>
      match py_splitext_ext f with
      | none => cont (f ++ EXT_CSV)
      | some e =>
          let e := lower e
          if EXT_CSV ≠ e ∧ EXT_JSON ≠ e then .error (.badExtension e)
          else cont f

/-- Everything the driver has computed when it reaches the copula call
(line 417): the RNG state, the loader outputs, the date axis, the repaired
synthetic timeseries and the requested sample count. -/
structure PreState (σ τ γ : Type) where
  rng : σ
  variable_names : List PyStr
  tau : τ
  cdfs : γ
  dates : List PyStr
  synthetic_timeseries : List Int
  sample_count : Int
  str_max_date_orig : PyStr
  output_file_path : PyStr

/-- Driver lines 271-276: a non-`None` `num_samples` must be a positive
integer, otherwise `sys.exit(-1)`. -/
def check_num_samples (num_samples : Option Int) : Except ExitReason Unit :=
  match num_samples with
  | some v => if v ≤ 0 then .error .badNumSamples else .ok ()
  | none => .ok ()

/-- Driver lines 267-405: initialize the RNG, validate `num_samples`, load
the model data, validate the header, derive the signal, run the Fourier
synthesizer and the sparse-repair escalation loop, and compute the requested
sample count (`int(np.sum(synthetic_timeseries))`, overridden by
`num_samples` when that local is not `None`).  The two `assert` statements
and the `dates[-1]` subscript are modelled as fatal exits. -/
def generate_pre {σ τ γ φ μ ρ δ : Type} (comps : Components σ τ γ φ μ ρ δ)
    (time : Nat) (rng_seed num_samples : Option Int)
    (infile_list : List PyStr) (output_file_path : PyStr) :
    Except ExitReason (PreState σ τ γ) :=
  let rng := init_rng comps time rng_seed
  match check_num_samples num_samples with
  | .error e => .error e
  | .ok () =>
    let md := comps.init_model_data infile_list variable_names_in rng
    let rng := md.2
    match md.1.1 with
    | none => .error .initModelDataFailure
    | some variable_names =>
      if variable_names_in.length ≠ variable_names.length then
        .error .initModelDataFailure
      else
        let tau_original := md.1.2.1
        let cdf_list := md.1.2.2.1
        let file_data := md.1.2.2.2
        match header_check comps.get_preprocessed_header comps.output_fields with
        | .error e => .error e
        | .ok () =>
          let ds := comps.signal_from_anchor_date file_data
          let dates := ds.1
          let signal := ds.2
          if signal.length ≠ dates.length then .error .assertionFailed
          else
            match dates.getLast? with
            | none => .error .indexError
            | some str_max_date_orig =>
              let fo := comps.gen_synthetic_fourier rng signal
              let synthetic_fourier := fo.1
              let rng := fo.2
              if synthetic_fourier.length ≠ signal.length then
                .error .assertionFailed
              else
                let lr := sparse_repair_loop comps.modify_sparse_segments
                    signal synthetic_fourier rng
                let synthetic_timeseries := lr.1
                let rng := lr.2.2
                let sample_count_synthetic : Int := synthetic_timeseries.sum
                let sample_count_synthetic :=
                  match num_samples with
                  | some v => v
                  | none => sample_count_synthetic
                .ok { rng, variable_names, tau := tau_original,
                      cdfs := cdf_list, dates, synthetic_timeseries,
                      sample_count := sample_count_synthetic,
                      str_max_date_orig, output_file_path }

/-- Driver lines 411-471: run the copula model; a `None` result is a fatal
exit (`sys.exit(-1)`); otherwise correct pseudopersons, remap, derive the
date tuples, and hand everything to the output writer. -/
def copula_and_after {σ τ γ φ μ ρ δ : Type} (comps : Components σ τ γ φ μ ρ δ)
    (st : PreState σ τ γ) : Except ExitReason (WriteCall ρ δ) :=
  let cm := comps.copula_n_variable_model st.sample_count st.variable_names
      st.tau st.cdfs st.rng
  let rng := cm.2
  match cm.1.1 with
  | none => .error .copulaFailure
  | some synthetic_data =>
    let cp := comps.correct_invalid_pseudopersons st.sample_count
        st.variable_names synthetic_data st.tau st.cdfs rng
    let synthetic_data := cp.1
    let rng := cp.2
    let synthetic_results :=
      comps.remap_synthetic_results synthetic_data st.variable_names
    let gd := comps.generate_date_tuples st.sample_count
        st.synthetic_timeseries st.dates st.variable_names synthetic_results
        st.str_max_date_orig rng
    .ok { output_file_path := st.output_file_path,
          sample_count := st.sample_count,
          synthetic_timeseries := st.synthetic_timeseries,
          dates := st.dates, variable_names := st.variable_names,
          synthetic_results, str_max_date_orig := st.str_max_date_orig,
          date_tuples := gd.1 }

/-- The full generation pipeline from RNG initialization to the output
writer call (driver lines 267-471). -/
def generate {σ τ γ φ μ ρ δ : Type} (comps : Components σ τ γ φ μ ρ δ)
    (time : Nat) (rng_seed num_samples : Option Int)
    (infile_list : List PyStr) (output_file_path : PyStr) :
    Except ExitReason (WriteCall ρ δ) :=
  match generate_pre comps time rng_seed num_samples infile_list
      output_file_path with
  | .error e => .error e
  | .ok st => copula_and_after comps st

/-- Driver lines 202-263 followed by the generation pipeline: the data-root
check, condition-code grouping, input-file discovery (an empty list is the
clean `sys.exit(0)` path), and output path construction. -/
def run_after_locals {σ τ γ φ μ ρ δ : Type} (args : Args) (env : Env)
    (comps : Components σ τ γ φ μ ρ δ) (time : Nat) (l : CLILocals) :
    Except ExitReason (WriteCall ρ δ) :=
  if !(env.isdir args.hl7_dir) then .error (.badDataDir args.hl7_dir)
  else
    let code_list :=
      if l.disable_grouping then [args.condition_code]
      else env.get_grouped_codes args.condition_code l.syphilis_total
    let infile_list :=
      env.build_input_filepaths args.hl7_dir args.jurisdiction code_list
    if infile_list.length = 0 then .error (.noData args.jurisdiction code_list)
    else
      match build_output_paths l env args code_list with
      | .error e => .error e
      | .ok (output_dir, output_file_name) =>
        match env.build_output_filepath output_dir output_file_name with
        | none => .error .badOutputFilepath
        | some output_file_path =>
            generate comps time l.rng_seed l.num_samples infile_list
              output_file_path

/-- The whole driver script: argument processing, then the run. -/
def run {σ τ γ φ μ ρ δ : Type} (args : Args) (env : Env)
    (comps : Components σ τ γ φ μ ρ δ) (time : Nat) :
    Except ExitReason (WriteCall ρ δ) :=
  match cli_locals args with
  | .error e => .error e
  | .ok l => run_after_locals args env comps time l

/-!
Date tuple derivation.  `data.generate_date_tuples` lives in
`model_data_hl7`, which is not under `src/`, so it is modelled from the
specification (section 4.5 and the notebook's description of the date
ceiling).  Calendar dates are day ordinals in the Python `datetime`
convention (`0001-01-01` has ordinal 1).
-/

/-- Ordinal of the maximum representable HL7 date `9999-12-31`
(`datetime.date(9999, 12, 31).toordinal()`). -/
def MAX_ORDINAL : Nat := 3652059

/-- One derived pseudoperson date record: the anchor date aligned to the
timeseries, and a derived secondary date at a sampled offset past it. -/
structure DateTuple where
  anchor : Nat
  secondary : Nat
deriving DecidableEq

/-- Modelled from the spec: the day-by-day assignment loop of
`data.generate_date_tuples` (spec 4.5).  `fuel` counts the days left before
the representable ceiling is passed (the day being processed is
`MAX_ORDINAL + 1 - fuel`); `idx` indexes the synthetic signal, repeating it
cyclically into the future when the requested count exceeds its sum;
`assigned` numbers the tuples already placed (so each draws its own offset);
`remaining` counts the tuples still to place.  Each day consumes
`c = signal[idx]` tuples (fewer if fewer remain), anchored on that day, with
a secondary date clamped to the ceiling; the recursion halts early when the
next day would exceed the ceiling. -/
def derive_from (signal : List Nat) (offsets : Nat → Nat) :
    Nat → Nat → Nat → Nat → Nat → List DateTuple
  | 0, _day, _idx, _assigned, _remaining => []
  | fuel + 1, day, idx, assigned, remaining =>
      if remaining = 0 then []
      else
        let c := signal.getD (idx % signal.length) 0
        let k := min c remaining
        ((List.range k).map fun j =>
          ⟨day, min (day + offsets (assigned + j)) MAX_ORDINAL⟩) ++
        derive_from signal offsets fuel (day + 1) (idx + 1) (assigned + k)
          (remaining - k)

/-- Modelled from the spec: `data.generate_date_tuples` (spec 4.5).  Assigns
up to `n` tuples to consecutive calendar days starting at `first_day`,
deriving each secondary date from a sampled offset, and halting early at the
representable ceiling `MAX_ORDINAL`. -/
def generate_date_tuples_model (n : Nat) (synthetic_signal : List Nat)
    (first_day : Nat) (offsets : Nat → Nat) : List DateTuple :=
  derive_from synthetic_signal offsets (MAX_ORDINAL + 1 - first_day)
    first_day 0 0 n

/-!
Concrete instantiations used by the closed-form theorems and witnesses: a
trivial environment and a miniature component kit whose copula echoes the
requested sample count (`μ = ρ = Int`), so the count the copula receives is
observable in the output record.
-/

/-- A minimal environment: every directory exists, grouping is the identity,
one input file, fixed default output names. -/
def kitEnv : Env where
  isdir := fun _ => true
  get_grouped_codes := fun c _ => [c]
  build_input_filepaths := fun _ _ _ => [['f']]
  default_output_dir := fun _ => ['o']
  default_output_dir_noarg := ['o']
  default_output_file_name := fun _ _ _ => ['f', 'n']
  build_output_filepath := fun d n => some (d ++ n)

/-- A miniature component kit over `σ = Nat` (the RNG state is a counter):
the signal is the single day `[3]`, the Fourier stage adds one to every
entry (so the repair loop accepts its first attempt), and the copula echoes
the requested sample count into the output tuple data. -/
def kitComps : Components Nat Unit Unit Unit Int Int Unit where
  seeded := fun _ => 0
  fromTime := fun t => t
  init_model_data := fun _ _ r => ((some variable_names_in, (), (), ()), r)
  get_preprocessed_header := [['h']]
  output_fields := [['h']]
  signal_from_anchor_date := fun _ => ([['d']], [3])
  gen_synthetic_fourier := fun r s => (s.map (· + 1), r)
  modify_sparse_segments := fun r f _ => (f, r)
  copula_n_variable_model := fun n _ _ _ r => ((some n, ()), r)
  correct_invalid_pseudopersons := fun _ _ d _ _ r => (d, r)
  remap_synthetic_results := fun d _ => d
  generate_date_tuples := fun _ _ _ _ _ _ r => ((), r)

/-- `kitComps` with a copula that always returns the `None` failure
sentinel. -/
def kitFailComps : Components Nat Unit Unit Unit Int Int Unit :=
  { kitComps with copula_n_variable_model := fun _ _ _ _ r => ((none, ()), r) }

/-- `kitComps` with an output-field list that disagrees with the
preprocessed header. -/
def kitBadHeaderComps : Components Nat Unit Unit Unit Int Int Unit :=
  { kitComps with output_fields := [['x']] }

/-- `kitEnv` with no input files for any jurisdiction. -/
def kitEmptyEnv : Env :=
  { kitEnv with build_input_filepaths := fun _ _ _ => [] }

/-- The `PreState` that `generate_pre` reaches on the `kitComps` pipeline
(time 0, no seed, no sample-count override, the kit input file and output
path). -/
def kitPre : PreState Nat Unit Unit where
  rng := 0
  variable_names := variable_names_in
  tau := ()
  cdfs := ()
  dates := [['d']]
  synthetic_timeseries := [4]
  sample_count := 4
  str_max_date_orig := ['d']
  output_file_path := ['o', 'f', 'n']

/-- Arguments shared by the concrete scenarios. -/
def baseArgs : Args where
  hl7_dir := ['h']
  jurisdiction := ['j']
  condition_code := 11080
  outfile := none
  num_samples := none
  rng_seed := none
  debug := false
  disable_grouping := false
  syphilis_total := false

/-- Concrete scenario: the user passes `--num_samples=65536`. -/
def argsC1a : Args := { baseArgs with num_samples := some 65536 }

/-- Concrete scenario: the user passes `--num_samples=-5`. -/
def argsC1b : Args := { baseArgs with num_samples := some (-5) }

/-- Concrete scenario: `--outfile=results` (no extension, does not end in
`csv` or `json`). -/
def argsC6a : Args :=
  { baseArgs with outfile := some ['r', 'e', 's', 'u', 'l', 't', 's'] }

/-- Concrete scenario: `--outfile=mycsv` (no dot, but ends in `csv`, so it
passes the `endswith` pre-check and reaches the `splitext` check). -/
def argsC6b : Args :=
  { baseArgs with outfile := some ['m', 'y', 'c', 's', 'v'] }

/-- Concrete scenario: a nonzero RNG seed supplied on the command line. -/
def argsSeeded : Args := { baseArgs with rng_seed := some 42 }

/-- The locals the driver computes for `argsC1a`. -/
def kitLocalsA : CLILocals where
  outfile := none
  num_samples := none
  rng_seed := none
  disable_grouping := false
  syphilis_total := false

/-- A repairer that returns its input unchanged (state untouched); every
loop attempt on it reproduces the signal when the Fourier output equals the
signal. -/
def modC2 : Nat → List Int → ℚ → List Int × Nat := fun s f _ => (f, s)

/-- A repairer that returns its input unchanged while advancing the RNG
counter. -/
def modC10 : Nat → List Int → ℚ → List Int × Nat := fun s f _ => (f, s + 1)

/-!
Helper lemmas and the claim theorems.
-/


lemma diff_nonzero_false_iff (a b : List Int) (h : a.length = b.length) :
    diff_nonzero a b = false ↔ a = b := by
  induction a generalizing b with
  | nil =>
      cases b with
      | nil => simp [diff_nonzero]
      | cons y ys => simp at h
  | cons x xs ih =>
      cases b with
      | nil => simp at h
      | cons y ys =>
          simp only [List.length_cons, Nat.succ.injEq] at h
          simp only [diff_nonzero, List.zipWith_cons_cons, List.any_cons,
            Bool.or_eq_false_iff, bne_eq_false_iff_eq, sub_eq_zero,
            List.cons.injEq]
          constructor
          · rintro ⟨hxy, hrest⟩
            exact ⟨hxy, (ih ys h).mp hrest⟩
          · rintro ⟨hxy, hrest⟩
            exact ⟨hxy, (ih ys h).mpr hrest⟩

lemma sparse_loop_fuel_char {σ : Type} (modify : σ → List Int → ℚ → List Int × σ)
    (signal synthetic_fourier : List Int) (s0 : σ) :
    ∀ (fuel base : Nat) (last res : List Int) (att : Nat) (s' : σ),
      sparse_loop_fuel modify signal synthetic_fourier fuel base
          (attempt_state modify synthetic_fourier s0 base) last = (res, att, s') →
      (base ≤ att ∧ att ≤ base + fuel) ∧
      (att < base + fuel →
          res = attempt_result modify synthetic_fourier s0 att ∧
          diff_nonzero res signal = true ∧
          ∀ j, base ≤ j → j < att →
            diff_nonzero (attempt_result modify synthetic_fourier s0 j) signal = false) ∧
      (att = base + fuel →
          (∀ j, base ≤ j → j < att →
            diff_nonzero (attempt_result modify synthetic_fourier s0 j) signal = false) ∧
          (fuel = 0 → res = last) ∧
          (0 < fuel → res = attempt_result modify synthetic_fourier s0 (base + fuel - 1))) := by
  intro fuel
  induction fuel with
  | zero =>
      intro base last res att s' h
      simp only [sparse_loop_fuel, Prod.mk.injEq] at h
      obtain ⟨rfl, rfl, rfl⟩ := h
      refine ⟨⟨le_refl _, by omega⟩, fun hlt => absurd hlt (by omega), fun _ => ?_⟩
      exact ⟨fun j hj1 hj2 => absurd hj2 (by omega), fun _ => rfl,
             fun h0 => absurd h0 (by omega)⟩
  | succ fuel ih =>
      intro base last res att s' h
      simp only [sparse_loop_fuel] at h
      split at h
      · -- first nonzero difference: accept this attempt
        rename_i hd
        simp only [Prod.mk.injEq] at h
        obtain ⟨rfl, rfl, rfl⟩ := h
        refine ⟨⟨le_refl _, by omega⟩, fun _ => ⟨rfl, hd, ?_⟩, fun heq => absurd heq (by omega)⟩
        intro j hj1 hj2
        exact absurd (lt_of_le_of_lt hj1 hj2) (lt_irrefl _)
      · -- identical result: escalate delta and retry
        rename_i hd
        have hd' : diff_nonzero
            (attempt_result modify synthetic_fourier s0 base) signal = false := by
          simpa using hd
        have H := ih (base + 1)
          (modify (attempt_state modify synthetic_fourier s0 base) synthetic_fourier
            (attempt_delta base)).1 res att s' h
        obtain ⟨⟨hb1, hb2⟩, Hlt, Heq⟩ := H
        refine ⟨⟨by omega, by omega⟩, ?_, ?_⟩
        · intro hlt
          obtain ⟨h1, h2, h3⟩ := Hlt (by omega)
          refine ⟨h1, h2, ?_⟩
          intro j hj1 hj2
          rcases Nat.eq_or_lt_of_le hj1 with hj | hj
          · exact hj ▸ hd'
          · exact h3 j hj hj2
        · intro heq
          obtain ⟨h1, h2, h3⟩ := Heq (by omega)
          refine ⟨?_, fun h0 => absurd h0 (by omega), ?_⟩
          · intro j hj1 hj2
            rcases Nat.eq_or_lt_of_le hj1 with hj | hj
            · exact hj ▸ hd'
            · exact h1 j hj hj2
          · intro _
            rcases Nat.eq_zero_or_pos fuel with hf | hf
            · subst hf
              have := h2 rfl
              simpa [attempt_result] using this
            · have := h3 hf
              rw [this]
              congr 1
              omega

lemma sparse_loop_fuel_congr {σ : Type} (modify modify' : σ → List Int → ℚ → List Int × σ)
    (signal synthetic_fourier : List Int)
    (hagree : ∀ (s : σ) (d : ℚ),
        modify s synthetic_fourier d = modify' s synthetic_fourier d) :
    ∀ (fuel base : Nat) (s : σ) (last : List Int),
      sparse_loop_fuel modify signal synthetic_fourier fuel base s last =
        sparse_loop_fuel modify' signal synthetic_fourier fuel base s last := by
  intro fuel
  induction fuel with
  | zero => intro base s last; rfl
  | succ fuel ih =>
      intro base s last
      simp only [sparse_loop_fuel, hagree s (attempt_delta base)]
      split
      · rfl
      · exact ih (base + 1) _ _

/-- C2: the sparse-segment repair escalation loop performs at most 7
attempts; attempt `k` (k = 0..6) calls the repairer with
`delta = 0.1 * k` starting at 0; the loop stops and accepts the first result
whose difference from the original signal is not identically zero; if all 7
attempts yield a result identical to the original signal it terminates
without error and the run proceeds with that unmodified series; under the
spec's length-preservation contract for the repairer, the accepted series
has the signal's length (as does every attempt's output). -/
theorem sparse_repair_escalation {σ : Type}
    (modify : σ → List Int → ℚ → List Int × σ)
    (signal synthetic_fourier : List Int) (rng : σ)
    (hlen : ∀ (s : σ) (d : ℚ),
        (modify s synthetic_fourier d).1.length = synthetic_fourier.length)
    (hfs : synthetic_fourier.length = signal.length)
    (res : List Int) (att : Nat) (s' : σ)
    (h : sparse_repair_loop modify signal synthetic_fourier rng = (res, att, s')) :
    att ≤ 7 ∧
    res.length = signal.length ∧
    attempt_delta 0 = 0 ∧
    (∀ k : Nat, attempt_delta k = (k : ℚ) / 10) ∧
    (att < 7 →
        res = attempt_result modify synthetic_fourier rng att ∧
        res ≠ signal ∧
        ∀ j < att, attempt_result modify synthetic_fourier rng j = signal) ∧
    (att = 7 →
        res = signal ∧
        ∀ j < 7, attempt_result modify synthetic_fourier rng j = signal) := by
  have hchar := sparse_loop_fuel_char modify signal synthetic_fourier rng 7 0 [] res att s' h
  obtain ⟨⟨_, hb2⟩, Hlt, Heq⟩ := hchar
  have hARlen : ∀ k, (attempt_result modify synthetic_fourier rng k).length = signal.length := by
    intro k
    rw [attempt_result, hlen, hfs]
  refine ⟨by omega, ?_, ?_, ?_, ?_, ?_⟩
  · -- length of the accepted series
    rcases Nat.lt_or_ge att 7 with hl | hg
    · obtain ⟨h1, _, _⟩ := Hlt (by omega)
      rw [h1]; exact hARlen att
    · have h7 : att = 7 := by omega
      obtain ⟨_, _, h3⟩ := Heq (by omega)
      rw [h3 (by omega)]; exact hARlen 6
  · simp [attempt_delta]
  · intro k
    rw [attempt_delta, threshold_inc]
    ring
  · intro hlt
    obtain ⟨h1, h2, h3⟩ := Hlt (by omega)
    refine ⟨h1, ?_, ?_⟩
    · intro hcontra
      have : diff_nonzero res signal = false :=
        (diff_nonzero_false_iff res signal (by rw [h1]; exact hARlen att)).mpr hcontra
      rw [this] at h2
      exact Bool.false_ne_true h2
    · intro j hj
      exact (diff_nonzero_false_iff _ _ (hARlen j)).mp (h3 j (Nat.zero_le j) hj)
  · intro h7
    obtain ⟨h1, _, h3⟩ := Heq (by omega)
    have hres : res = attempt_result modify synthetic_fourier rng 6 := h3 (by omega)
    have h6 : attempt_result modify synthetic_fourier rng 6 = signal :=
      (diff_nonzero_false_iff _ _ (hARlen 6)).mp (h1 6 (Nat.zero_le 6) (by omega))
    exact ⟨hres.trans h6, fun j hj =>
      (diff_nonzero_false_iff _ _ (hARlen j)).mp (h1 j (Nat.zero_le j) (by omega))⟩

/-- C10: every attempt of the escalation loop applies the repairer to the
same unchanged `synthetic_fourier` (the loop's value is unchanged when the
repairer is replaced by any function agreeing with it on that one input),
and the accepted result is the output of a single repairer call — the one
at the final attempt index — so perturbations do not accumulate across
attempts. -/
theorem sparse_repair_single_call {σ : Type}
    (modify modify' : σ → List Int → ℚ → List Int × σ)
    (signal synthetic_fourier : List Int) (rng : σ)
    (hagree : ∀ (s : σ) (d : ℚ),
        modify s synthetic_fourier d = modify' s synthetic_fourier d) :
    sparse_repair_loop modify signal synthetic_fourier rng =
      sparse_repair_loop modify' signal synthetic_fourier rng ∧
    (sparse_repair_loop modify signal synthetic_fourier rng).1 =
      attempt_result modify synthetic_fourier rng
        (min (sparse_repair_loop modify signal synthetic_fourier rng).2.1 6) := by
  constructor
  · exact sparse_loop_fuel_congr modify modify' signal synthetic_fourier hagree 7 0 rng []
  · rcases hres : sparse_repair_loop modify signal synthetic_fourier rng with ⟨res, att, s'⟩
    obtain ⟨⟨_, hb2⟩, Hlt, Heq⟩ :=
      sparse_loop_fuel_char modify signal synthetic_fourier rng 7 0 [] res att s' hres
    rcases Nat.lt_or_ge att 7 with hl | hg
    · obtain ⟨h1, _, _⟩ := Hlt (by omega)
      rw [show min att 6 = att by omega]
      exact h1
    · obtain ⟨_, _, h3⟩ := Heq (by omega)
      rw [show min att 6 = 6 by omega]
      exact h3 (by omega)

lemma generate_time_indep {σ τ γ φ μ ρ δ : Type} (comps : Components σ τ γ φ μ ρ δ)
    (v : Int) (num_samples : Option Int) (infile_list : List PyStr)
    (output_file_path : PyStr) (t1 t2 : Nat) :
    generate comps t1 (some v) num_samples infile_list output_file_path =
      generate comps t2 (some v) num_samples infile_list output_file_path := rfl

lemma cli_locals_rng_seed (args : Args) (l : CLILocals)
    (h : cli_locals args = .ok l) :
    l.rng_seed = if truthy_int args.rng_seed then args.rng_seed else none := by
  unfold cli_locals at h
  cases hout : args.outfile with
  | none =>
      simp only [hout] at h
      injection h with h'
      subst h'
      rfl
  | some f =>
      simp only [hout] at h
      by_cases hemp : f.isEmpty = true
      · rw [if_pos hemp] at h
        injection h with h'
        subst h'
        rfl
      · rw [if_neg hemp] at h
        by_cases hext :
            (!endswith f ['c', 's', 'v'] && !endswith f ['j', 's', 'o', 'n']) = true
        · rw [if_pos hext] at h
          exact absurd h (by simp)
        · rw [if_neg hext] at h
          injection h with h'
          subst h'
          rfl

/-- C3: for a fixed integer RNG seed and fixed input data the pipeline is a
deterministic function — its output does not depend on the system time, so
two runs produce identical outputs; the single RNG state created by
`init_rng` is threaded sequentially through every component, and the same
holds at the CLI level whenever the supplied seed is truthy. -/
theorem pipeline_reproducible {σ τ γ φ μ ρ δ : Type}
    (comps : Components σ τ γ φ μ ρ δ) (seed : Int)
    (num_samples : Option Int) (infile_list : List PyStr)
    (output_file_path : PyStr) (t1 t2 : Nat) :
    generate comps t1 (some seed) num_samples infile_list output_file_path =
      generate comps t2 (some seed) num_samples infile_list output_file_path ∧
    (∀ (args : Args) (env : Env), truthy_int args.rng_seed = true →
        run args env comps t1 = run args env comps t2) := by
  constructor
  · exact generate_time_indep comps seed num_samples infile_list output_file_path t1 t2
  · intro args env ht
    obtain ⟨v, hv⟩ : ∃ v, args.rng_seed = some v := by
      cases hseed : args.rng_seed with
      | none => rw [hseed] at ht; simp [truthy_int] at ht
      | some v => exact ⟨v, rfl⟩
    unfold run
    cases hcl : cli_locals args with
    | error e => rfl
    | ok l =>
        have hls : l.rng_seed = some v := by
          rw [cli_locals_rng_seed args l hcl, if_pos ht, hv]
        show run_after_locals args env comps t1 l = run_after_locals args env comps t2 l
        unfold run_after_locals
        simp only [hls,
          fun ns il op => generate_time_indep comps v ns il op t1 t2]

/-- C4: when the copula model returns the `None` failure sentinel, the run
aborts with the copula-stage diagnostic; the result is unchanged for every
choice of the pseudoperson corrector, remapper and date-tuple deriver (none
of them is invoked), and no output record is produced; via `generate` the
whole pipeline yields the same fatal error. -/
theorem copula_none_aborts {σ τ γ φ μ ρ δ : Type}
    (comps : Components σ τ γ φ μ ρ δ) (st : PreState σ τ γ)
    (h : (comps.copula_n_variable_model st.sample_count st.variable_names
        st.tau st.cdfs st.rng).1.1 = none) :
    copula_and_after comps st = .error .copulaFailure ∧
    (∀ (c' : Int → List PyStr → μ → τ → γ → σ → μ × σ)
       (r' : μ → List PyStr → ρ)
       (g' : Int → List Int → List PyStr → List PyStr → ρ → PyStr → σ → δ × σ),
        copula_and_after
          { comps with correct_invalid_pseudopersons := c',
                       remap_synthetic_results := r',
                       generate_date_tuples := g' } st = .error .copulaFailure) ∧
    (∀ (time : Nat) (rng_seed num_samples : Option Int)
       (infl : List PyStr) (outp : PyStr),
        generate_pre comps time rng_seed num_samples infl outp = .ok st →
        generate comps time rng_seed num_samples infl outp =
          .error .copulaFailure) := by
  have habort : copula_and_after comps st = .error .copulaFailure := by
    unfold copula_and_after
    simp only [h]
  refine ⟨habort, ?_, ?_⟩
  · intro c' r' g'
    unfold copula_and_after
    simp only [h]
  · intro time rng_seed num_samples infl outp hpre
    unfold generate
    rw [hpre]
    exact habort

lemma derive_from_length_le (signal : List Nat) (offsets : Nat → Nat) :
    ∀ (fuel day idx assigned remaining : Nat),
      (derive_from signal offsets fuel day idx assigned remaining).length ≤
        remaining := by
  intro fuel
  induction fuel with
  | zero => intro day idx assigned remaining; simp [derive_from]
  | succ fuel ih =>
      intro day idx assigned remaining
      simp only [derive_from]
      split
      · simp
      · rename_i hr
        rw [List.length_append, List.length_map, List.length_range]
        have hrec := ih (day + 1) (idx + 1)
          (assigned + min (signal.getD (idx % signal.length) 0) remaining)
          (remaining - min (signal.getD (idx % signal.length) 0) remaining)
        omega

lemma derive_from_dates_le (signal : List Nat) (offsets : Nat → Nat) :
    ∀ (fuel day idx assigned remaining : Nat),
      day + fuel ≤ MAX_ORDINAL + 1 →
      ∀ t ∈ derive_from signal offsets fuel day idx assigned remaining,
        t.anchor ≤ MAX_ORDINAL ∧ t.secondary ≤ MAX_ORDINAL := by
  intro fuel
  induction fuel with
  | zero => intro day idx assigned remaining _ t ht; simp [derive_from] at ht
  | succ fuel ih =>
      intro day idx assigned remaining hday t ht
      simp only [derive_from] at ht
      split at ht
      · simp at ht
      · rw [List.mem_append] at ht
        rcases ht with ht | ht
        · rw [List.mem_map] at ht
          obtain ⟨j, _, rfl⟩ := ht
          constructor
          · show day ≤ MAX_ORDINAL
            omega
          · exact min_le_right _ _
        · exact ih (day + 1) (idx + 1) _ _ (by omega) t ht

/-- C5: the date-tuple deriver returns at most `n` date tuples; every
derived date (anchor and secondary) is at or below the representable ceiling
9999-12-31; and once the copula stage has produced tuples, the rest of the
run — including truncated date derivation — cannot fail: it always reaches
the output-writer call. -/
theorem date_tuple_deriver_bounds :
    (∀ (n : Nat) (sig : List Nat) (first_day : Nat) (offs : Nat → Nat),
        (generate_date_tuples_model n sig first_day offs).length ≤ n) ∧
    (∀ (n : Nat) (sig : List Nat) (first_day : Nat) (offs : Nat → Nat)
       (t : DateTuple), t ∈ generate_date_tuples_model n sig first_day offs →
        t.anchor ≤ MAX_ORDINAL ∧ t.secondary ≤ MAX_ORDINAL) ∧
    (∀ (σ τ γ φ μ ρ δ : Type) (comps : Components σ τ γ φ μ ρ δ)
       (st : PreState σ τ γ) (d : μ),
        (comps.copula_n_variable_model st.sample_count st.variable_names
          st.tau st.cdfs st.rng).1.1 = some d →
        ∃ w, copula_and_after comps st = .ok w) := by
  refine ⟨?_, ?_, ?_⟩
  · intro n sig first_day offs
    exact derive_from_length_le sig offs _ first_day 0 0 n
  · intro n sig first_day offs t ht
    unfold generate_date_tuples_model at ht
    rcases le_or_lt first_day (MAX_ORDINAL + 1) with hf | hf
    · exact derive_from_dates_le sig offs _ first_day 0 0 n (by omega) t ht
    · rw [show MAX_ORDINAL + 1 - first_day = 0 by omega] at ht
      simp [derive_from] at ht
  · intro σ τ γ φ μ ρ δ comps st d h
    unfold copula_and_after
    simp only [h]
    exact ⟨_, rfl⟩

/-- C7: when no input files are found for the requested jurisdiction and
code group, the driver exits cleanly with status 0 carrying a message naming
the jurisdiction and the codes, while the configuration errors (bad data
root, bad output extension, bad header) exit with the nonzero status -1. -/
theorem no_data_clean_exit {σ τ γ φ μ ρ δ : Type} (args : Args) (env : Env)
    (comps : Components σ τ γ φ μ ρ δ) (time : Nat) (l : CLILocals)
    (hl : cli_locals args = .ok l)
    (hdir : env.isdir args.hl7_dir = true)
    (hempty : env.build_input_filepaths args.hl7_dir args.jurisdiction
        (if l.disable_grouping then [args.condition_code]
         else env.get_grouped_codes args.condition_code l.syphilis_total) = []) :
    run args env comps time =
      .error (.noData args.jurisdiction
        (if l.disable_grouping then [args.condition_code]
         else env.get_grouped_codes args.condition_code l.syphilis_total)) ∧
    (∀ (j : PyStr) (c : List Int), exit_code (.noData j c) = 0) ∧
    (∀ d, exit_code (.badDataDir d) = -1) ∧
    exit_code .badExtensionPre = -1 ∧
    (∀ e, exit_code (.badExtension e) = -1) ∧
    exit_code .headerLengthMismatch = -1 ∧
    (∀ i, exit_code (.headerFieldMismatch i) = -1) := by
  refine ⟨?_, fun _ _ => rfl, fun _ => rfl, rfl, fun _ => rfl, rfl, fun _ => rfl⟩
  unfold run
  rw [hl]
  unfold run_after_locals
  simp only [hdir, hempty, Bool.not_true, Bool.false_eq_true, if_false,
    List.length_nil, if_pos rfl, if_true]

lemma header_check_ok_iff (header_list output_fields : List PyStr) :
    header_check header_list output_fields = .ok () ↔
      header_list = output_fields := by
  unfold header_check
  constructor
  · intro h
    split at h
    · exact absurd h (by simp)
    · rename_i hlen
      split at h
      · exact absurd h (by simp)
      · rename_i hfind
        have hlen' : header_list.length = output_fields.length := by omega
        apply List.ext_getElem hlen'
        intro i h1 h2
        have hmem := List.find?_eq_none.mp hfind i (List.mem_range.mpr h2)
        simp only [bne_iff_ne, ne_eq, Decidable.not_not] at hmem
        rw [List.getD_eq_getElem header_list [] h1,
            List.getD_eq_getElem output_fields [] h2] at hmem
        exact hmem
  · intro h
    subst h
    rw [if_neg (by simp)]
    have hnone : (List.range header_list.length).find?
        (fun i => header_list.getD i [] != header_list.getD i []) = none :=
      List.find?_eq_none.mpr (fun i _ => by simp)
    rw [hnone]

lemma header_check_mismatch (header_list output_fields : List PyStr)
    (h : header_list ≠ output_fields) :
    ∃ e, header_check header_list output_fields = .error e ∧
      (e = .headerLengthMismatch ∨ ∃ i, e = .headerFieldMismatch i) := by
  cases hc : header_check header_list output_fields with
  | error e =>
      refine ⟨e, rfl, ?_⟩
      unfold header_check at hc
      split at hc
      · injection hc with hc'
        exact Or.inl hc'.symm
      · split at hc
        · rename_i i _
          injection hc with hc'
          exact Or.inr ⟨i, hc'.symm⟩
        · exact absurd hc (by simp)
  | ok u =>
      cases u
      exact absurd ((header_check_ok_iff _ _).mp hc) h

/-- C8: before any generation, the preprocessed-data header list is compared
with the fixed output-field list; the comparison succeeds exactly when the
two lists are equal (same length and the same string at every position,
order-sensitively); on any mismatch the pipeline aborts with a fatal
header diagnostic before any signal processing, for all choices of the
generation components. -/
theorem header_mismatch_fatal (header_list output_fields : List PyStr) :
    (header_check header_list output_fields = .ok () ↔
      header_list = output_fields) ∧
    (∀ (σ τ γ φ μ ρ δ : Type) (comps : Components σ τ γ φ μ ρ δ)
       (time : Nat) (rng_seed num_samples : Option Int)
       (infl : List PyStr) (outp : PyStr) (vns : List PyStr),
        comps.get_preprocessed_header = header_list →
        comps.output_fields = output_fields →
        header_list ≠ output_fields →
        check_num_samples num_samples = .ok () →
        (comps.init_model_data infl variable_names_in
            (init_rng comps time rng_seed)).1.1 = some vns →
        variable_names_in.length = vns.length →
        ∃ e, generate comps time rng_seed num_samples infl outp = .error e ∧
          (e = .headerLengthMismatch ∨ ∃ i, e = .headerFieldMismatch i)) := by
  constructor
  · exact header_check_ok_iff header_list output_fields
  · intro σ τ γ φ μ ρ δ comps time rng_seed num_samples infl outp vns
      hh1 hh2 hne hns hmd hlen
    obtain ⟨e, he, hshape⟩ := header_check_mismatch header_list output_fields hne
    refine ⟨e, ?_, hshape⟩
    unfold generate generate_pre
    rw [hns]
    simp only [hmd, hh1, hh2, he,
      if_neg (by omega : ¬ variable_names_in.length ≠ vns.length)]

/-- C9: when the CLI is invoked with an RNG seed of 0, the truthiness test
on the argument treats the seed as absent: the computed locals and the whole
run coincide with the no-seed invocation, in which the RNG is initialized
from the system time, so a seed of 0 does not yield reproducible runs (the
initial RNG state differs across invocation times). -/
theorem rng_seed_zero_treated_absent :
    (∀ (args : Args),
        cli_locals { args with rng_seed := some 0 } =
          cli_locals { args with rng_seed := none }) ∧
    (∀ (args : Args) (env : Env) (σ τ γ φ μ ρ δ : Type)
        (comps : Components σ τ γ φ μ ρ δ) (t : Nat),
        run { args with rng_seed := some 0 } env comps t =
          run { args with rng_seed := none } env comps t) ∧
    (∀ (σ τ γ φ μ ρ δ : Type) (comps : Components σ τ γ φ μ ρ δ) (t : Nat),
        init_rng comps t none = comps.fromTime t) ∧
    init_rng kitComps 0 none ≠ init_rng kitComps 1 none := by
  refine ⟨fun args => rfl, fun args env σ τ γ φ μ ρ δ comps t => rfl,
          fun σ τ γ φ μ ρ δ comps t => rfl, by decide⟩

/-- C1: the requested tuple count passed to the copula model always equals
the integer sum of the synthetic timeseries, because the CLI script never
copies `args.num_samples` into its local `num_samples`: with
`--num_samples=65536` the copula still receives the sum (4 in the concrete
kit), with `--num_samples=-5` the run does not abort, and for every argument
vector the computed local `num_samples` is `None`.  This contradicts the
claimed override behaviour (and the script's own docstring), exhibiting the
code bug. -/
theorem cli_num_samples_ignored :
    ((run argsC1a kitEnv kitComps 0).map
        fun w => (w.sample_count, w.synthetic_results)) = .ok (4, 4) ∧
    ((run argsC1b kitEnv kitComps 0).map fun w => w.sample_count) = .ok 4 ∧
    (∀ (args : Args) (l : CLILocals),
        cli_locals args = .ok l → l.num_samples = none) := by
  refine ⟨rfl, rfl, ?_⟩
  intro args l h
  unfold cli_locals at h
  cases hout : args.outfile with
  | none =>
      simp only [hout] at h
      injection h with h'
      subst h'
      rfl
  | some f =>
      simp only [hout] at h
      by_cases hemp : f.isEmpty = true
      · rw [if_pos hemp] at h
        injection h with h'
        subst h'
        rfl
      · rw [if_neg hemp] at h
        by_cases hext :
            (!endswith f ['c', 's', 'v'] && !endswith f ['j', 's', 'o', 'n']) = true
        · rw [if_pos hext] at h
          exact absurd h (by simp)
        · rw [if_neg hext] at h
          injection h with h'
          subst h'
          rfl

/-- C6: an output path whose extension is not `.csv`/`.json` makes the CLI
exit with a configuration error before touching the environment (the
rejection of `--outfile=results` holds for every environment, component kit
and time, hence before any data is read); but an extensionless output path
is NOT given a default `.csv` extension: `--outfile=mycsv` slips past the
`endswith` pre-check and is then rejected by the extension check, because
`os.path.splitext` never returns `None` and the defaulting branch is dead
code.  This contradicts the claimed defaulting behaviour, exhibiting the
code bug. -/
theorem outfile_no_extension_rejected :
    (∀ (σ τ γ φ μ ρ δ : Type) (comps : Components σ τ γ φ μ ρ δ)
       (env : Env) (time : Nat),
        run argsC6a env comps time = .error .badExtensionPre) ∧
    run argsC6b kitEnv kitComps 0 = .error (.badExtension []) ∧
    (∀ p : PyStr, (py_splitext_ext p).isSome = true) ∧
    exit_code .badExtensionPre = -1 ∧
    (∀ e, exit_code (.badExtension e) = -1) := by
  exact ⟨fun σ τ γ φ μ ρ δ comps env time => rfl, rfl, fun p => rfl, rfl,
         fun e => rfl⟩

/-- Witness for C1: the concrete invocation with `--num_samples=65536`
satisfies the hypothesis of the quantified conjunct, and the computed local
is indeed `None`. -/
theorem cli_num_samples_ignored_witness :
    cli_locals argsC1a = .ok kitLocalsA ∧ kitLocalsA.num_samples = none :=
  ⟨rfl, cli_num_samples_ignored.2.2 argsC1a kitLocalsA rfl⟩

/-- Witness for C2: a length-preserving repairer on an all-identical
configuration satisfies both hypotheses, and the loop returns the signal
unchanged after its 7 attempts. -/
theorem sparse_repair_escalation_witness :
    (∀ (s : Nat) (d : ℚ), (modC2 s [1] d).1.length = ([1] : List Int).length) ∧
    ([1] : List Int).length = ([1] : List Int).length ∧
    (sparse_repair_loop modC2 [1] [1] 0).1 = [1] := by
  refine ⟨fun _ _ => rfl, rfl, ?_⟩
  have H := sparse_repair_escalation modC2 [1] [1] 0 (fun _ _ => rfl) rfl
    [1] 7 0 rfl
  exact (H.2.2.2.2.2 rfl).1

/-- Witness for C3: a concrete truthy seed makes two runs at different
system times coincide. -/
theorem pipeline_reproducible_witness :
    truthy_int argsSeeded.rng_seed = true ∧
    run argsSeeded kitEnv kitComps 0 = run argsSeeded kitEnv kitComps 1 :=
  ⟨rfl, (pipeline_reproducible kitComps 0 none [] [] 0 1).2 argsSeeded kitEnv rfl⟩

/-- Witness for C4: the always-failing copula kit satisfies the sentinel
hypothesis, and both the copula stage and the whole pipeline abort with the
copula diagnostic. -/
theorem copula_none_aborts_witness :
    copula_and_after kitFailComps kitPre = .error .copulaFailure ∧
    generate kitFailComps 0 none none [['f']] ['o', 'f', 'n'] =
      .error .copulaFailure := by
  have H := copula_none_aborts kitFailComps kitPre rfl
  exact ⟨H.1, H.2.2 0 none none [['f']] ['o', 'f', 'n'] rfl⟩

/-- Witness for C5: a concrete derivation starting at the ceiling produces a
member tuple whose dates are at the ceiling, and the concrete kit's
successful copula lets the run reach the writer. -/
theorem date_tuple_deriver_bounds_witness :
    ((⟨MAX_ORDINAL, MAX_ORDINAL⟩ : DateTuple) ∈
        generate_date_tuples_model 2 [2] MAX_ORDINAL (fun _ => 0) ∧
      (⟨MAX_ORDINAL, MAX_ORDINAL⟩ : DateTuple).anchor ≤ MAX_ORDINAL ∧
      (⟨MAX_ORDINAL, MAX_ORDINAL⟩ : DateTuple).secondary ≤ MAX_ORDINAL) ∧
    ∃ w, copula_and_after kitComps kitPre = .ok w := by
  have hmem : (⟨MAX_ORDINAL, MAX_ORDINAL⟩ : DateTuple) ∈
      generate_date_tuples_model 2 [2] MAX_ORDINAL (fun _ => 0) := by decide
  have hdt := date_tuple_deriver_bounds.2.1 2 [2] MAX_ORDINAL (fun _ => 0)
    ⟨MAX_ORDINAL, MAX_ORDINAL⟩ hmem
  exact ⟨⟨hmem, hdt.1, hdt.2⟩,
    date_tuple_deriver_bounds.2.2 Nat Unit Unit Unit Int Int Unit
      kitComps kitPre 4 rfl⟩

/-- Witness for C7: the empty-discovery environment satisfies all three
hypotheses and the run exits with status 0 naming jurisdiction and codes. -/
theorem no_data_clean_exit_witness :
    run baseArgs kitEmptyEnv kitComps 0 = .error (.noData ['j'] [11080]) ∧
    exit_code (.noData ['j'] [11080]) = 0 := by
  have H := no_data_clean_exit baseArgs kitEmptyEnv kitComps 0 kitLocalsA
    rfl rfl rfl
  exact ⟨H.1, H.2.1 ['j'] [11080]⟩

/-- Witness for C8: the mismatched-header kit satisfies every hypothesis and
the pipeline aborts with a header diagnostic. -/
theorem header_mismatch_fatal_witness :
    ([['h']] : List PyStr) ≠ [['x']] ∧
    ∃ e, generate kitBadHeaderComps 0 none none [['f']] ['o'] = .error e ∧
      (e = .headerLengthMismatch ∨ ∃ i, e = .headerFieldMismatch i) :=
  ⟨by decide,
   (header_mismatch_fatal [['h']] [['x']]).2 Nat Unit Unit Unit Int Int Unit
     kitBadHeaderComps 0 none none [['f']] ['o'] variable_names_in
     rfl rfl (by decide) rfl rfl rfl⟩

/-- Witness for C9: on the concrete kit the time-seeded initial states of
two invocation times differ. -/
theorem rng_seed_zero_treated_absent_witness :
    init_rng kitComps 0 none ≠ init_rng kitComps 1 none :=
  rng_seed_zero_treated_absent.2.2.2

/-- Witness for C10: a concrete repairer agrees with itself on the Fourier
input, and the loop's result is the single accepted repairer call. -/
theorem sparse_repair_single_call_witness :
    sparse_repair_loop modC10 [0] [1] 0 = sparse_repair_loop modC10 [0] [1] 0 ∧
    (sparse_repair_loop modC10 [0] [1] 0).1 =
      attempt_result modC10 [1] 0
        (min (sparse_repair_loop modC10 [0] [1] 0).2.1 6) :=
  sparse_repair_single_call modC10 modC10 [0] [1] 0 (fun _ _ => rfl)
